import Mathlib

/-!
# CitizenSafe decision cascade — verification development

Shallow embedding of the decision cascade of the CitizenSafe server
(`server/app.py`, `server/escalation_model_service.py`):

* the heuristic suspicion scorer `_quick_fake_check`,
* the fake-report verification cascades `detect_fake_report` and
  `auto_verify_report`,
* the credibility-ledger update,
* the keyword crime classifiers `auto_extract_and_classify` and the
  keyword-override chain of `predict_crime_type`,
* the escalation override engine `predict_escalation_risk`.

Texts are modelled as `List Char` (Python `str`), matching the source's
case-insensitive substring and word-boundary regex matching character by
character.  Confidence and probability values (Python floats whose
constants are all exact hundredths) are modelled as integers in
hundredths of the unit interval: 0.95 is represented as 95.  External oracles (the ML
fabrication model, the Gemini LLM, the escalation base model) are passed in
as `Option`/`Except` parameters, mirroring the call contract the source
uses for them.
-/

namespace CitizenSafe

/-! ## Text utilities mirroring the Python string operations used -/

/-- `str.lower()` on the ASCII texts handled by the server. -/
def lowerL (s : List Char) : List Char := s.map Char.toLower

/-- The apostrophe character, used inside several keyword phrases. -/
def apos : Char := Char.ofNat 39

/-- Does `hay` start with `pre`?  (Helper for substring containment.) -/
def startsWithL : List Char → List Char → Bool
  | [], _ => true
  | _ :: _, [] => false
  | p :: ps, c :: cs => p == c && startsWithL ps cs

/-- Python `needle in hay` (substring containment). -/
def containsL (needle : List Char) : List Char → Bool
  | [] => startsWithL needle []
  | c :: cs => startsWithL needle (c :: cs) || containsL needle cs

/-- `any(kw in s for kw in kws)` — substring match against a keyword list. -/
def containsAny (kws : List (List Char)) (s : List Char) : Bool :=
  kws.any (fun k => containsL k s)

/-- Python `str.count(ch)` for a single character. -/
def countChar (ch : Char) (s : List Char) : Nat :=
  s.countP (fun c => c == ch)

/-- Accumulator for `splitWs`: the current (reversed) word being read. -/
def splitWsAux (acc : List Char) : List Char → List (List Char)
  | [] => if acc.isEmpty then [] else [acc.reverse]
  | c :: cs =>
    if c.isWhitespace then
      if acc.isEmpty then splitWsAux [] cs else acc.reverse :: splitWsAux [] cs
    else splitWsAux (c :: acc) cs

/-- Python `str.split()`: split on whitespace runs, dropping empty pieces. -/
def splitWs (s : List Char) : List (List Char) := splitWsAux [] s

/-- `len(text.split())`. -/
def wordCount (s : List Char) : Nat := (splitWs s).length

/-! ### Word-boundary (`\b`) regex token matching

The server matches several keyword patterns with `re.search` using
`\b`-anchored alternations.  `\b` holds between a word character
(`[A-Za-z0-9_]`) and a non-word character or a text edge.  The scanners
below walk the text carrying the previous character to decide the left
boundary. -/

/-- Regex `\w`: ASCII letters, digits and underscore. -/
def wordChar (c : Char) : Bool := c.isAlphanum || c == '_'

/-- A `\b` left boundary before a word character, given the previous char. -/
def leftBoundary : Option Char → Bool
  | none => true
  | some c => !wordChar c

/-- A `\b` right boundary after a word character, given the remaining text. -/
def rightBoundary : List Char → Bool
  | [] => true
  | c :: _ => !wordChar c

/-- Consume the literal `tok` from the front of `s`, returning the rest. -/
def dropTok : List Char → List Char → Option (List Char)
  | [], s => some s
  | _ :: _, [] => none
  | p :: ps, c :: cs => if p == c then dropTok ps cs else none

/-- Consume a maximal (possibly empty) run of whitespace. -/
def dropWsGreedy : List Char → List Char
  | [] => []
  | c :: cs => if c.isWhitespace then dropWsGreedy cs else c :: cs

/-- Regex `\s+`: consume one-or-more whitespace characters (maximally). -/
def dropWsPlus : List Char → Option (List Char)
  | [] => none
  | c :: cs => if c.isWhitespace then some (dropWsGreedy cs) else none

/-- Consume a maximal (possibly empty) run of word characters. -/
def dropWordGreedy : List Char → List Char
  | [] => []
  | c :: cs => if wordChar c then dropWordGreedy cs else c :: cs

/-- Regex `\w+`: consume one-or-more word characters (maximally). -/
def dropWordPlus : List Char → Option (List Char)
  | [] => none
  | c :: cs => if wordChar c then some (dropWordGreedy cs) else none

/-- Try a position-wise matcher at every position of the text, tracking the
previous character for `\b` decisions. -/
def searchFrom (m : Option Char → List Char → Bool) : Option Char → List Char → Bool
  | prev, [] => m prev []
  | prev, c :: cs => m prev (c :: cs) || searchFrom m (some c) cs

/-- `re.search` of a position-wise matcher over the whole text. -/
def searchText (m : Option Char → List Char → Bool) (s : List Char) : Bool :=
  searchFrom m none s

/-- Matcher for the pattern `\b tok \b` at one position. -/
def matchTokenAt (tok : List Char) (prev : Option Char) (s : List Char) : Bool :=
  leftBoundary prev &&
    match dropTok tok s with
    | some rest => rightBoundary rest
    | none => false

/-- `re.search(r"\b tok \b", s)`. -/
def tokenSearch (tok : List Char) (s : List Char) : Bool :=
  searchText (matchTokenAt tok) s

/-- `re.search(r"\b(?:kw1|kw2|...)\b", s)` for a keyword alternation. -/
def matchAnyTok (kws : List (List Char)) (s : List Char) : Bool :=
  kws.any (fun k => tokenSearch k s)

end CitizenSafe

namespace CitizenSafe

/-! ## Heuristic Suspicion Scorer — `_quick_fake_check` (app.py 1277-1441)

Each check below mirrors one numbered check of the source.  The reason
strings collected by the source are presentational only and are omitted;
every penalty contribution and gating condition is kept. -/

/-- The vowels used by the gibberish checks. -/
def isVowel (c : Char) : Bool :=
  c == 'a' || c == 'e' || c == 'i' || c == 'o' || c == 'u'

/-- Number of vowels in the text (check 1a). -/
def vowelCount (s : List Char) : Nat := s.countP isVowel

/-- Number of alphabetic characters in the text (check 1a). -/
def alphaCount (s : List Char) : Nat := s.countP Char.isAlpha

/-- Scanner for the regex `[^aeiou\s]{4,}` (check 1b): `run` is the length
of the current run of non-vowel, non-whitespace characters. -/
def hasRun4NonVowelNonWs (run : Nat) : List Char → Bool
  | [] => decide (4 ≤ run)
  | c :: cs =>
    if isVowel c || c.isWhitespace then
      decide (4 ≤ run) || hasRun4NonVowelNonWs 0 cs
    else hasRun4NonVowelNonWs (run + 1) cs

/-- `re.findall(r"[^aeiou\s]{4,}", text_lower)` is non-empty (check 1b). -/
def hasConsonantCluster (s : List Char) : Bool := hasRun4NonVowelNonWs 0 s

/-- The common English letter combinations of check 1c. -/
def commonEnglishPatterns : List (List Char) :=
  (["th", "er", "on", "an", "in", "ed", "ing", "ly", "ion", "al", "en"]).map
    String.toList

/-- Regex `(.)\1{2,}`: three or more identical consecutive characters. -/
def hasTripleRepeat : List Char → Bool
  | a :: b :: c :: cs => (a == b && b == c) || hasTripleRepeat (b :: c :: cs)
  | _ => false

/-- Check 1c's per-word test: a word longer than 4 characters lacking every
common pattern, or containing a triple character repeat. -/
def suspiciousWord (w : List Char) : Bool :=
  let wl := lowerL w
  if 4 < wl.length then
    !(commonEnglishPatterns.any (fun p => containsL p wl)) || hasTripleRepeat wl
  else false

/-- Number of suspicious words among the split words of the text. -/
def suspiciousWordCount (text : List Char) : Nat :=
  (splitWs text).countP suspiciousWord

/-- Check 1 (all three gibberish sub-checks), gated on texts of at most 5
words.  `len(suspicious_words) >= len(text_words)/2` is the exact rational
comparison `wordCount ≤ 2 * suspiciousWordCount`. -/
def gibberishPenalty (text : List Char) : Nat :=
  if wordCount text ≤ 5 then
    let tl := lowerL text
    (if 0 < alphaCount tl ∧ 5 * vowelCount tl < alphaCount tl then 20 else 0) +
      (if hasConsonantCluster tl then 20 else 0) +
      (if wordCount text ≤ 2 * suspiciousWordCount text then 20 else 0)
  else 0

/-- Check 2: extremely short reports. -/
def brevityPenalty (text : List Char) : Nat :=
  if wordCount text < 5 then 5 else if wordCount text < 10 then 2 else 0

/-- Joke/satire keywords (second check 2 of the source). -/
def jokeKeywords : List (List Char) :=
  (["lol", "haha", "jk", "just kidding", "obviously fake", "just testing",
    "fake report"]).map String.toList

/-- Joke/satire keyword penalty. -/
def jokePenalty (tl : List Char) : Nat :=
  if containsAny jokeKeywords tl then 20 else 0

/-- `\b`-terminated alternation: one of `alts` followed by a `\b`. -/
def tokAltEnd (alts : List (List Char)) (r : List Char) : Bool :=
  alts.any fun a =>
    match dropTok a r with
    | some rest => rightBoundary rest
    | none => false

/-- Matcher for `\b100\s+(?:robbers|criminals|people)\b` at one position. -/
def matchHundredAt (prev : Option Char) (s : List Char) : Bool :=
  leftBoundary prev &&
    match dropTok ("100").toList s with
    | some rest =>
      match dropWsPlus rest with
      | some r2 => tokAltEnd ((["robbers", "criminals", "people"]).map String.toList) r2
      | none => false
    | none => false

/-- Regex `\+?`: consume a leading `+` exactly when present (the
following `\s+` can never match a `+`, so this is equivalent to the
optional greedy group). -/
def dropPlusOpt : List Char → List Char
  | [] => []
  | c :: r => if c == '+' then r else c :: r

/-- Matcher for `\b50\+?\s+(?:shots|bullets|explosions)\b` at one
position. -/
def matchFiftyAt (prev : Option Char) (s : List Char) : Bool :=
  leftBoundary prev &&
    match dropTok ("50").toList s with
    | some rest =>
      match dropWsPlus (dropPlusOpt rest) with
      | some r2 => tokAltEnd ((["shots", "bullets", "explosions"]).map String.toList) r2
      | none => false
    | none => false

/-- `second\b` at the front of the remaining text. -/
def matchSecondEnd (r : List Char) : Bool :=
  match dropTok ("second").toList r with
  | some rest => rightBoundary rest
  | none => false

/-- Matcher for `\bevery\s+(\w+\s+)?second\b` at one position.  The greedy
`\w+`/`\s+` runs are maximal; shorter backtracking splits would leave a word
character in front of `\s+` (or whitespace in front of `\w`-consumption),
so maximal consumption is equivalent to the regex. -/
def matchEveryAt (prev : Option Char) (s : List Char) : Bool :=
  leftBoundary prev &&
    match dropTok ("every").toList s with
    | some rest =>
      match dropWsPlus rest with
      | some r2 =>
        matchSecondEnd r2 ||
          (match dropWordPlus r2 with
           | some r3 =>
             match dropWsPlus r3 with
             | some r4 => matchSecondEnd r4
             | none => false
           | none => false)
      | none => false
    | none => false

/-- Check 3 penalty: the six implausible-magnitude regex patterns in
source order, each matching pattern adding 8. -/
def implausiblePenalty (tl : List Char) : Nat :=
  (if tokenSearch ("1000").toList tl then 8 else 0) +
    (if tokenSearch ("999").toList tl then 8 else 0) +
    (if searchText matchHundredAt tl then 8 else 0) +
    (if tokenSearch ("million").toList tl then 8 else 0) +
    (if searchText matchFiftyAt tl then 8 else 0) +
    (if searchText matchEveryAt tl then 8 else 0)

/-- The negation words of check 4 (the source lists `didn't` twice). -/
def negationPhrases : List (List Char) :=
  (["not", "never"]).map String.toList ++
    [("didn").toList ++ apos :: ("t").toList,
     ("didn").toList ++ apos :: ("t").toList] ++
    (["no one", "nobody"]).map String.toList

/-- Check 4: contradictory statements (`but` together with a negation). -/
def contradictionPenalty (tl : List Char) : Nat :=
  if containsL ("but").toList tl && containsAny negationPhrases tl then 3 else 0

/-- Check 5 (first half): excessive punctuation. -/
def punctuationPenalty (tl : List Char) : Nat :=
  if 3 < countChar '!' tl || 3 < countChar '?' tl then 3 else 0

/-- `text_lower.count(text_lower.upper())` for ASCII text: `1` exactly when
the text has no alphabetic character (then the lowercased text equals its
own uppercase and contains it once — Python counts the empty string in the
empty string once as well), and `0` otherwise. -/
def capsOccurrences (tl : List Char) : Nat :=
  if tl.any Char.isAlpha then 0 else 1

/-- Check 5 (second half): `count > len(text_words) * 0.3` as the exact
rational comparison `10 * count > 3 * wordCount`. -/
def capsPenalty (text : List Char) : Nat :=
  if 3 * wordCount text < 10 * capsOccurrences (lowerL text) then 3 else 0

/-- The vague terms of check 6. -/
def vagueTerms : List (List Char) :=
  (["something", "somebody", "anyone", "anything", "stuff"]).map String.toList

/-- Number of distinct vague terms occurring in the text. -/
def vagueCount (tl : List Char) : Nat :=
  vagueTerms.countP (fun t => containsL t tl)

/-- Check 6: vague description penalty. -/
def vaguePenalty (tl : List Char) : Nat :=
  if 3 ≤ vagueCount tl then 4 else 0

/-- The disclaimer phrases of check 7. -/
def disclaimerPhrases : List (List Char) :=
  [("i").toList ++ apos :: ("m just checking").toList] ++
    (["just testing", "this is fake", "not real", "probably not important",
      "not sure if", "might be fake", "probably fake"]).map String.toList

/-- Check 7: suspicious disclaimer language. -/
def disclaimerPenalty (tl : List Char) : Nat :=
  if containsAny disclaimerPhrases tl then 15 else 0

/-- Check 8: low reporter credibility. -/
def lowCredibilityPenalty (cred : Int) : Nat := if cred < 25 then 5 else 0

/-- The crime vocabulary of check 9, in source order. -/
def crimeKeywords : List (List Char) :=
  (["steal", "stole", "stolen", "steals", "stealing", "robbery", "rob",
    "robbed", "theft", "thief", "fight", "fighting", "fought", "brawl",
    "assault", "assaulted", "murder", "murdered", "rape", "raped", "weapon",
    "gun", "guns", "knife", "knives", "fire", "hit", "hitting", "shot",
    "shots", "injured", "harm", "attack", "attacked", "attacking", "stab",
    "stabbed", "beat", "beaten", "beating", "violence", "violent", "crime",
    "criminal", "accident", "incident", "emergency", "police", "ambulance",
    "hospital", "danger", "threat", "suspicious", "kidnap", "kidnapped",
    "kidnapping", "abduct", "abducted", "bomb", "explosion", "arson",
    "vandal", "vandalism"]).map String.toList

/-- The non-crime vocabulary of check 9, in source order. -/
def nonCrimeKeywords : List (List Char) :=
  (["character", "game", "level", "score", "password", "account", "app",
    "bug", "update", "download", "install", "error", "crash", "freeze",
    "lag", "late", "missed", "forgot", "lost", "broke"]).map String.toList ++
    [("didn").toList ++ apos :: ("t work").toList,
     ("didn").toList ++ apos :: ("t get").toList,
     ("wasn").toList ++ apos :: ("t").toList,
     ("wasn").toList ++ apos :: ("t able").toList,
     ("didn").toList ++ apos :: ("t receive").toList] ++
    (["not received", "order", "delivery", "package", "complaint", "review",
      "rating", "ghost", "alien", "ufo", "demon", "zombie", "vampire",
      "werewolf", "spirit", "supernatural", "magic", "wizard", "unicorn",
      "dragon", "bigfoot", "yeti"]).map String.toList

/-- Check 9: missing crime elements, gated on texts of at least 5 words. -/
def missingCrimePenalty (text tl : List Char) : Nat :=
  if !containsAny crimeKeywords tl ∧ 5 ≤ wordCount text then
    10 + (if containsAny nonCrimeKeywords tl then 12 else 0)
  else 0

/-- The uncapped penalty accumulated across checks 1-9, in source order. -/
def quickRawPenalty (text : List Char) (cred : Int) : Nat :=
  let tl := lowerL text
  gibberishPenalty text + brevityPenalty text + jokePenalty tl +
    implausiblePenalty tl + contradictionPenalty tl + punctuationPenalty tl +
    capsPenalty text + vaguePenalty tl + disclaimerPenalty tl +
    lowCredibilityPenalty cred + missingCrimePenalty text tl

/-- Result of `_quick_fake_check` (the reason strings are omitted). -/
structure QuickCheck where
  is_suspicious : Bool
  confidence : Int
  penalty : Nat
  deriving Repr, DecidableEq

/-- `_quick_fake_check(report_text, officer_credibility_score)`: the
suspicion flag and the confidence are derived from the uncapped penalty,
the returned penalty is capped at 25. -/
def quickFakeCheck (text : List Char) (cred : Int) : QuickCheck :=
  let raw := quickRawPenalty text cred
  { is_suspicious := decide (8 ≤ raw),
    confidence := min (20 + 3 * (raw : Int)) 95,
    penalty := min raw 25 }

end CitizenSafe

namespace CitizenSafe

/-! ## Verification Cascade — `/detect-fake-report` (app.py 1444-1720)

The endpoint's pure decision core as a function of the report text, the
reporter credibility and the two external oracles:

* `ml`: `none` when the ML fabrication model is not loaded, otherwise the
  outcome of `predict_fake_with_ml_model` (which may raise);
* `gemini`: `none` when no Gemini API key is configured, otherwise the
  outcome of the Gemini call (`error` = no parseable JSON reply, which the
  endpoint turns into an HTTP 500 by raising `ValueError`).

The Firestore persistence side effects are outside the decision core. -/

/-- Reply of the statistical fabrication classifier oracle. -/
structure MLReply where
  is_fake : Bool
  confidence : Int
  deriving Repr, DecidableEq

/-- Parsed JSON reply of the Gemini fake-report analysis
(`is_fake`/`confidence`/`credibility_penalty`/`can_upload`). -/
structure LLMReply where
  is_fake : Bool
  confidence : Int
  credibility_penalty : Int
  can_upload : Bool
  deriving Repr, DecidableEq

/-- Which code path produced the verdict of `/detect-fake-report`. -/
inductive DTier where
  | ml | llm | heuristic | defaults
  deriving Repr, DecidableEq

/-- Verdict returned by `/detect-fake-report` (the `tier` field instruments
which branch produced it; the endpoint itself returns no tier). -/
structure DetectVerdict where
  is_fake : Bool
  confidence : Int
  credibility_penalty : Int
  can_upload : Bool
  tier : DTier
  deriving Repr, DecidableEq

/-- `detect_fake_report` decision core.  Notable control-flow facts kept
from the source: the tier-2 guard `ML_FAKE_MODEL is None or 'is_fake' not
in locals()` can only trigger on its first disjunct because `is_fake` is
initialised before the cascade, so when the loaded ML model raises and a
Gemini key exists the endpoint falls through to neither tier and returns
the initialised defaults (`is_fake=False, confidence=0.0, penalty=0,
can_upload=False`); without a Gemini key the exception is re-raised. -/
def detectFakeReport (text : List Char) (cred : Int)
    (ml : Option (Except Unit MLReply)) (gemini : Option (Except Unit LLMReply)) :
    Except Unit DetectVerdict :=
  let quick := quickFakeCheck text cred
  match ml with
  | some (.ok r) =>
    let conf :=
      if quick.is_suspicious && decide (r.confidence < quick.confidence) then
        quick.confidence
      else r.confidence
    let pen : Int :=
      if quick.is_suspicious then (quick.penalty : Int)
      else if r.is_fake then 20 else 0
    .ok { is_fake := r.is_fake, confidence := conf, credibility_penalty := pen,
          can_upload := !r.is_fake && decide (20 ≤ cred), tier := .ml }
  | some (.error _) =>
    match gemini with
    | some _ =>
      .ok { is_fake := false, confidence := 0, credibility_penalty := 0,
            can_upload := false, tier := .defaults }
    | none => .error ()
  | none =>
    match gemini with
    | some (.ok g) =>
      let conf :=
        if quick.is_suspicious then max g.confidence quick.confidence
        else g.confidence
      let pen : Int :=
        if quick.is_suspicious && decide (g.credibility_penalty < (quick.penalty : Int)) then
          (quick.penalty : Int)
        else g.credibility_penalty
      .ok { is_fake := g.is_fake, confidence := conf, credibility_penalty := pen,
            can_upload := g.can_upload, tier := .llm }
    | some (.error _) => .error ()
    | none =>
      .ok { is_fake := quick.is_suspicious, confidence := quick.confidence,
            credibility_penalty := (quick.penalty : Int),
            can_upload := !quick.is_suspicious && decide (20 ≤ cred),
            tier := .heuristic }

/-! ## Verification Cascade — `/auto-verify-report` (app.py 1723-2205) -/

/-- Parsed JSON reply of the Gemini citizen-report analysis (this prompt
has no `can_upload` field). -/
structure GReply where
  is_fake : Bool
  confidence : Int
  credibility_penalty : Int
  deriving Repr, DecidableEq

/-- `verification_method` values of `/auto-verify-report`. -/
inductive AVTier where
  | safetyHeuristics | preScreening | mlModel | geminiApi | heuristics
  deriving Repr, DecidableEq

/-- Verdict of `/auto-verify-report`.  `ml_used`/`llm_used` instrument
whether the ML fabrication model / the Gemini service were invoked on the
text. -/
structure AVerdict where
  is_fake : Bool
  confidence : Int
  credibility_penalty : Int
  tier : AVTier
  ml_used : Bool
  llm_used : Bool
  deriving Repr, DecidableEq

/-- Error outcomes of `/auto-verify-report`: HTTP 403 for blocked
reporters, HTTP 500 when the Gemini reply cannot be parsed. -/
inductive AVError where
  | reporterBlocked | geminiParseFailure
  deriving Repr, DecidableEq

/-- The weapon vocabulary of the auto-verify safety pre-screening. -/
def weaponKeywordsAV : List (List Char) :=
  (["gun", "guns", "pistol", "rifle", "firearm", "armed", "knife", "knives",
    "blade", "bomb", "weapon"]).map String.toList

/-- The kidnapping vocabulary of the auto-verify safety pre-screening. -/
def kidnapKeywordsAV : List (List Char) :=
  (["kidnap", "kidnapped", "kidnapping", "abduct", "abducted"]).map String.toList

/-- Confidence-banded credibility penalty for an ML `fake` verdict with
confidence at least 0.60 (app.py 1918-1931). -/
def mlPenaltyBand (conf : Int) : Int :=
  if 95 ≤ conf then 22
  else if 85 ≤ conf then 18
  else if 70 ≤ conf then 12
  else 8

/-- Confidence-banded credibility reward on the allow path (app.py
1933-1955).  The source reassigns `is_fake = False` before these branches,
so the reward depends only on the confidence. -/
def mlRewardBand (conf : Int) : Int :=
  if 95 ≤ conf then -5
  else if 85 ≤ conf then -3
  else if 70 ≤ conf then -1
  else 0

/-- Intermediate verdict state after tier 1 of `/auto-verify-report`. -/
structure AVState where
  is_fake : Bool
  confidence : Int
  credibility_penalty : Int
  tier : AVTier
  ml_used : Bool
  deriving Repr, DecidableEq

/-- Tier 1 of `/auto-verify-report` (app.py 1894-1978): the safety branch
for weapon/kidnapping texts, else the ML model with confidence banding and
the low-confidence second-opinion trigger (`verification_method`
downgraded to `heuristics` for a fake call with confidence below 0.70). -/
def autoVerifyTier1 (safety : Bool) (mlLoaded : Bool)
    (mlResult : Except Unit MLReply) : AVState :=
  if safety then
    { is_fake := false, confidence := 100, credibility_penalty := 0,
      tier := .safetyHeuristics, ml_used := false }
  else if mlLoaded then
    match mlResult with
    | .ok r =>
      let base : AVState :=
        if r.is_fake && decide (60 ≤ r.confidence) then
          { is_fake := true, confidence := r.confidence,
            credibility_penalty := mlPenaltyBand r.confidence,
            tier := .mlModel, ml_used := true }
        else
          { is_fake := false, confidence := r.confidence,
            credibility_penalty := mlRewardBand r.confidence,
            tier := .mlModel, ml_used := true }
      if base.is_fake && decide (base.confidence < 70) then
        { base with tier := .heuristics }
      else base
    | .error _ =>
      { is_fake := false, confidence := 50, credibility_penalty := 0,
        tier := .heuristics, ml_used := true }
  else
    { is_fake := false, confidence := 50, credibility_penalty := 0,
      tier := .heuristics, ml_used := false }

/-- `/auto-verify-report` decision core.  Order of the source: reporter
block check (HTTP 403 for credibility ≤ 0), safety pre-screening on
weapon/kidnapping vocabulary, quick-check pre-screening for reports under
10 words, tier 1 (ML), tier 2 (Gemini, entered when the ML model object is
not loaded or the method fell back to `heuristics`), tier 3 (heuristic
scorer, when no Gemini key exists). -/
def autoVerifyReport (text : List Char) (cred : Int) (mlLoaded : Bool)
    (mlResult : Except Unit MLReply) (gemini : Option (Except Unit GReply)) :
    Except AVError AVerdict :=
  if cred ≤ 0 then .error .reporterBlocked
  else
    let tl := lowerL text
    let hasWeapons := containsAny weaponKeywordsAV tl
    let hasKidnapping := containsAny kidnapKeywordsAV tl
    let safety := hasWeapons || hasKidnapping
    if !safety && decide (wordCount text < 10) &&
        (quickFakeCheck text cred).is_suspicious then
      .ok { is_fake := true, confidence := 85,
            credibility_penalty := ((quickFakeCheck text cred).penalty : Int),
            tier := .preScreening, ml_used := false, llm_used := false }
    else
      let s1 := autoVerifyTier1 safety mlLoaded mlResult
      if !mlLoaded || s1.tier == .heuristics then
        match gemini with
        | some (.ok g) =>
          .ok { is_fake := g.is_fake, confidence := g.confidence,
                credibility_penalty := g.credibility_penalty,
                tier := .geminiApi, ml_used := s1.ml_used, llm_used := true }
        | some (.error _) => .error .geminiParseFailure
        | none =>
          let q := quickFakeCheck text cred
          .ok { is_fake := q.is_suspicious, confidence := q.confidence,
                credibility_penalty := (q.penalty : Int),
                tier := .heuristics, ml_used := s1.ml_used, llm_used := false }
      else
        .ok { is_fake := s1.is_fake, confidence := s1.confidence,
              credibility_penalty := s1.credibility_penalty,
              tier := s1.tier, ml_used := s1.ml_used, llm_used := false }

/-! ## Credibility Ledger — user credibility update (app.py 2170-2186)

`credibility_penalty` is the signed delta: positive penalises (subtracts),
negative rewards (adds).  The stored score after the update block: -/

/-- The ledger update.  A zero delta performs no update; a reward at a
score of 100 or more is suppressed (the source logs "no reward applied"
and skips the write); otherwise the clamped value
`max(0, min(100, current - delta))` is written. -/
def applyDelta (currentScore delta : Int) : Int :=
  if delta = 0 then currentScore
  else if 100 ≤ currentScore ∧ delta < 0 then currentScore
  else max 0 (min 100 (currentScore - delta))

end CitizenSafe

namespace CitizenSafe

/-! ## Keyword Rule Engine — `auto_extract_and_classify` (app.py 478-665)

This classifier matches keywords with the word-boundary regex
`\b(?:kw1|kw2|...)\b` (`match_any`).  The ML crime-type model is passed as
an oracle: `some (label, confidence)` when loaded and inference succeeds,
`none` otherwise (the source then continues to the heuristic fallbacks). -/

/-- `person_keywords` (duplicates kept as in the source). -/
def personKeywords : List (List Char) :=
  (["person", "child", "children", "boy", "girl", "baby", "infant",
    "toddler", "kid", "kids", "woman", "man", "women", "men", "boy",
    "girl", "student", "student"]).map String.toList

/-- The kidnapping/abduction vocabulary of `auto_extract_and_classify`. -/
def kidnapVocabAE : List (List Char) :=
  (["kidnap", "kidnapped", "kidnapping", "abduct", "abducted", "abduction",
    "taken", "forcibly taken", "grabbed", "missing child",
    "child missing"]).map String.toList

/-- The explicit missing-child phrases that bypass the person gate. -/
def explicitChildPhrases : List (List Char) :=
  (["missing child", "child missing"]).map String.toList

/-- The weapon vocabulary of `auto_extract_and_classify`. -/
def weaponVocabAE : List (List Char) :=
  (["gun", "guns", "pistol", "rifle", "firearm", "armed", "knife",
    "knives", "blade", "bomb"]).map String.toList

/-- The robbery vocabulary of `auto_extract_and_classify`. -/
def robberyVocabAE : List (List Char) :=
  (["robbery", "robbed", "steal", "stole", "snatch", "snatched"]).map
    String.toList

/-- The theft vocabulary of `auto_extract_and_classify`. -/
def theftVocabAE : List (List Char) :=
  (["stolen", "theft", "wallet", "phone", "bag", "stole", "steal",
    "stealing", "steals", "pickpocket", "pick-pocket", "snatched"]).map
    String.toList

/-- Crime classification fields of the `auto_extract_and_classify` result
(`auto_crime_type`, `auto_crime_confidence`, `auto_crime_reasoning`). -/
structure AutoClassification where
  crime_type : Option String
  confidence : Int
  reasoning : Option String
  deriving Repr, DecidableEq

/-- The heuristic fallback chain of `auto_extract_and_classify` (app.py
596-629), reached only when no critical keywords matched and the ML model
was unavailable.  The source sets no reasoning string on these branches. -/
def autoExtractFallback (tl : List Char) : AutoClassification :=
  if matchAnyTok ((["rape", "raped", "sexual assault", "molest",
      "molestation", "abuse", "sexual abuse"]).map String.toList) tl then
    { crime_type := some "Rape", confidence := 96, reasoning := none }
  else if matchAnyTok ((["murder", "killed", "homicide", "dead", "body",
      "corpse"]).map String.toList) tl then
    { crime_type := some "Murder", confidence := 95, reasoning := none }
  else if matchAnyTok ((["stolen", "theft", "wallet", "phone", "bag",
      "stole", "steal", "stealing", "steals", "pickpocket",
      "pick-pocket"]).map String.toList) tl then
    if !matchAnyTok ((["person", "child", "girl", "boy", "woman", "man",
        "kid"]).map String.toList) tl then
      { crime_type := some "Theft", confidence := 88, reasoning := none }
    else
      { crime_type := some "Assault", confidence := 85, reasoning := none }
  else if matchAnyTok ((["fire", "arson", "burn", "burning"]).map
      String.toList) tl then
    { crime_type := some "Arson", confidence := 82, reasoning := none }
  else if matchAnyTok ((["burglary", "break-in", "broke in", "breaking in",
      "trespass"]).map String.toList) tl then
    { crime_type := some "Burglary", confidence := 86, reasoning := none }
  else if matchAnyTok ((["assault", "attacked", "injured", "fight",
      "fighting", "brawl", "beat up", "beaten"]).map String.toList) tl then
    { crime_type := some "Assault", confidence := 88, reasoning := none }
  else if matchAnyTok ((["vandal", "vandalism", "graffiti", "damaged",
      "destruction", "property damage"]).map String.toList) tl then
    { crime_type := some "Vandalism", confidence := 80, reasoning := none }
  else
    { crime_type := none, confidence := 30, reasoning := none }

/-- The crime-classification logic of `auto_extract_and_classify`:
kidnapping requires a person-context keyword OR an explicit missing-child
phrase; critical keywords bypass the ML model entirely, and so does the
weaponless theft check.  `mlOracle` abbreviates the PyTorch crime-type
model's `(label, confidence)` when it is loaded and inference succeeds
(the source's ML reasoning string interpolates the model path and
confidence; it is abbreviated here). -/
def autoExtractClassify (text : List Char) (mlOracle : Option (String × Int)) :
    AutoClassification :=
  let tl := lowerL text
  let hasPerson := matchAnyTok personKeywords tl
  let hasKidnapping :=
    (matchAnyTok kidnapVocabAE tl && hasPerson) ||
      matchAnyTok explicitChildPhrases tl
  let hasWeapon := matchAnyTok weaponVocabAE tl
  let hasRobbery := matchAnyTok robberyVocabAE tl
  let hasTheft := matchAnyTok theftVocabAE tl
  if hasKidnapping || hasWeapon then
    if hasKidnapping then
      { crime_type := some "Murder", confidence := 97,
        reasoning := some "🚨 KIDNAPPING/ABDUCTION detected - Classified as Murder (highest severity) due to extreme danger to victim." }
    else if hasRobbery then
      { crime_type := some "Armed Robbery", confidence := 95,
        reasoning := some "⚠️ WEAPON + ROBBERY detected - Classified as Armed Robbery (heuristic override)" }
    else
      { crime_type := some "Armed Robbery", confidence := 93,
        reasoning := some "⚠️ WEAPON DETECTED - Classified as Armed Robbery (heuristic override, not Public Disturbance)" }
  else if hasTheft && !hasWeapon then
    { crime_type := some "Theft", confidence := 89,
      reasoning := some "⚠️ THEFT detected - Classified as Theft (heuristic override, not Public Disturbance)" }
  else
    match mlOracle with
    | some (label, conf) =>
      { crime_type := some label, confidence := conf,
        reasoning := some "ML Model" }
    | none => autoExtractFallback tl

/-! ## Keyword overrides of `/predict-crime-type` (app.py 2770-2926)

This second classifier post-processes the ML model's prediction with plain
substring keyword matching (`any(k in text_lower for k in ...)` — no word
boundaries and no person-context gate). -/

/-- `kidnapping_keywords` of `/predict-crime-type`. -/
def kidnappingKeywordsPCT : List (List Char) :=
  (["kidnap", "kidnapped", "kidnapping", "abduct", "abducted", "taken",
    "missing child", "child missing", "snatched", "snatch", "missing",
    "went missing", "disappeared"]).map String.toList

/-- `weapon_keywords` of `/predict-crime-type`. -/
def weaponKeywordsPCT : List (List Char) :=
  (["gun", "guns", "pistol", "rifle", "firearm", "armed", "knife",
    "knives", "blade", "bomb", "weapon", "weapons"]).map String.toList

/-- `theft_keywords` of `/predict-crime-type`. -/
def theftKeywordsPCT : List (List Char) :=
  (["stolen", "theft", "wallet", "phone", "bag", "stole", "steal",
    "stealing", "steals", "pickpocket", "pick-pocket", "snatched",
    "snatch", "took my"]).map String.toList

/-- `burglary_keywords` of `/predict-crime-type`. -/
def burglaryKeywordsPCT : List (List Char) :=
  (["broke into", "break in", "burglary", "burglar", "breaking in",
    "house break-in", "home invasion", "broke in"]).map String.toList

/-- `assault_keywords` of `/predict-crime-type`. -/
def assaultKeywordsPCT : List (List Char) :=
  (["fighting", "fight", "punch", "hit", "beat", "attack", "attacked",
    "assaulted", "assault", "brawl", "punching"]).map String.toList

/-- `rape_keywords` of `/predict-crime-type`. -/
def rapeKeywordsPCT : List (List Char) :=
  (["raped", "rape", "sexual assault", "assaulted sexually",
    "sexually assaulted", "forced", "forced sex",
    "forced against will"]).map String.toList

/-- `sexual_harassment_keywords` of `/predict-crime-type`. -/
def sexualHarassmentKeywordsPCT : List (List Char) :=
  (["sexual harassment", "sexually harassed", "harassed sexually",
    "inappropriate touch", "groping", "harassment", "unwanted advances",
    "touched inappropriately", "advances"]).map String.toList

/-- `drug_keywords` of `/predict-crime-type`. -/
def drugKeywordsPCT : List (List Char) :=
  (["drugs", "narcotics", "cocaine", "heroin", "marijuana", "cannabis",
    "meth", "drug offense", "dealer", "dealing", "powder", "white powder",
    "white substance"]).map String.toList

/-- `arson_keywords` of `/predict-crime-type`. -/
def arsonKeywordsPCT : List (List Char) :=
  (["fire", "set fire", "burning", "arson", "burned", "burnt",
    "explosion", "exploded", "explosive"]).map String.toList

/-- `fraud_keywords` of `/predict-crime-type`. -/
def fraudKeywordsPCT : List (List Char) :=
  (["fraud", "scam", "scammed", "defraud", "defrauded", "cheated",
    "phishing", "fake", "hacked", "hacking", "hack", "cybercrime",
    "compromised", "drained my", "disappeared with money",
    "disappeared with client", "disappeared with company",
    "stole the money", "stole all"]).map String.toList

/-- `vandalism_keywords` of `/predict-crime-type`. -/
def vandalismKeywordsPCT : List (List Char) :=
  (["vandalism", "vandalized", "graffiti", "spray painted", "damaged",
    "defaced", "threw paint", "threw on walls", "paint on walls",
    "paint on"]).map String.toList

/-- `child_keywords` of `/predict-crime-type`. -/
def childKeywordsPCT : List (List Char) :=
  (["child", "children", "kid", "kids", "baby", "infant", "toddler",
    "minor"]).map String.toList

/-- The robbery indicator list paired with weapons (app.py 2824). -/
def robberyIndicatorsPCT : List (List Char) :=
  (["robbery", "robbed", "steal", "stole", "snatch", "taking belongings",
    "taking their"]).map String.toList

/-- Result of the `/predict-crime-type` keyword-override chain (the
probability dictionary rewrite over the encoder's label set is oracle
dependent and not part of the decision modelled here). -/
structure CrimePrediction where
  crime_type : String
  confidence : Int
  reasoning : String
  detected_issue : Option String
  override_label : Option String
  deriving Repr, DecidableEq

/-- The keyword-override chain applied to the ML label/confidence by
`/predict-crime-type` (app.py 2787-2926), in source order: fraud first,
then kidnapping (escalated to Murder), rape, weapon+robbery,
weapon+theft, weapon alone, sexual harassment, drugs, arson, vandalism,
burglary, assault, weaponless theft; a minor-involved alert is appended
independently. -/
def predictCrimeTypeOverride (mlLabel : String) (mlConfidence : Int)
    (description : List Char) : CrimePrediction :=
  let tl := lowerL description
  let base : CrimePrediction :=
    if containsAny fraudKeywordsPCT tl then
      { crime_type := "Fraud", confidence := max mlConfidence 87,
        reasoning := "⚠️ Fraud indicators detected - classified as Fraud.",
        detected_issue := none, override_label := none }
    else if containsAny kidnappingKeywordsPCT tl then
      { crime_type := "Murder", confidence := max mlConfidence 97,
        reasoning := "🚨 CRITICAL: Kidnapping/abduction detected - escalated to Murder severity level.",
        detected_issue := some "kidnapping", override_label := some "Kidnapping" }
    else if containsAny rapeKeywordsPCT tl then
      { crime_type := "Rape", confidence := max mlConfidence 95,
        reasoning := "🚨 CRITICAL: Sexual violence detected - classified as Rape.",
        detected_issue := none, override_label := none }
    else if containsAny weaponKeywordsPCT tl && containsAny robberyIndicatorsPCT tl then
      { crime_type := "Armed Robbery", confidence := max mlConfidence 92,
        reasoning := "⚠️ Weapon + robbery indicators detected - classified as Armed Robbery.",
        detected_issue := none, override_label := none }
    else if containsAny weaponKeywordsPCT tl && containsAny theftKeywordsPCT tl then
      { crime_type := "Armed Robbery", confidence := max mlConfidence 92,
        reasoning := "⚠️ Weapon + theft indicators detected - classified as Armed Robbery.",
        detected_issue := none, override_label := none }
    else if containsAny weaponKeywordsPCT tl then
      { crime_type := "Assault", confidence := max mlConfidence 90,
        reasoning := "⚠️ Weapon-related keywords detected - likely Assault.",
        detected_issue := none, override_label := none }
    else if containsAny sexualHarassmentKeywordsPCT tl &&
        !containsAny rapeKeywordsPCT tl then
      { crime_type := "Sexual Harassment", confidence := max mlConfidence 91,
        reasoning := "⚠️ Sexual harassment indicators detected - classified as Sexual Harassment.",
        detected_issue := none, override_label := none }
    else if containsAny drugKeywordsPCT tl then
      { crime_type := "Drug Offense", confidence := max mlConfidence 88,
        reasoning := "⚠️ Drug-related keywords detected - classified as Drug Offense.",
        detected_issue := none, override_label := none }
    else if containsAny arsonKeywordsPCT tl then
      { crime_type := "Arson", confidence := max mlConfidence 90,
        reasoning := "⚠️ Fire/arson indicators detected - classified as Arson.",
        detected_issue := none, override_label := none }
    else if containsAny vandalismKeywordsPCT tl then
      { crime_type := "Vandalism", confidence := max mlConfidence 86,
        reasoning := "⚠️ Vandalism indicators detected - classified as Vandalism.",
        detected_issue := none, override_label := none }
    else if containsAny burglaryKeywordsPCT tl then
      { crime_type := "Burglary", confidence := max mlConfidence 88,
        reasoning := "⚠️ Burglary indicators detected - classified as Burglary.",
        detected_issue := none, override_label := none }
    else if containsAny assaultKeywordsPCT tl then
      { crime_type := "Assault", confidence := max mlConfidence 89,
        reasoning := "⚠️ Assault/violence indicators detected - classified as Assault.",
        detected_issue := none, override_label := none }
    else if containsAny theftKeywordsPCT tl &&
        !containsAny weaponKeywordsPCT tl then
      { crime_type := "Theft", confidence := max mlConfidence 89,
        reasoning := "⚠️ Theft indicators detected - classified as Theft.",
        detected_issue := none, override_label := none }
    else
      { crime_type := mlLabel, confidence := mlConfidence,
        reasoning := "ML Model", detected_issue := none, override_label := none }
  if containsAny childKeywordsPCT tl then
    { base with reasoning := base.reasoning ++ " | ⚠️ ALERT: Involves minor/child" }
  else base

end CitizenSafe

namespace CitizenSafe

/-! ## Escalation Override Engine — `predict_escalation_risk`
(escalation_model_service.py 171-455)

The BERT hybrid model supplies the base prediction; its output
(`predicted_risk`, `raw_confidence`, `raw_probabilities`) and the number
of unknown categorical features collected by `safe_encode` are the inputs
of the deterministic override logic modelled here. -/

/-- The three escalation risk levels. -/
inductive Risk where
  | low | medium | high
  deriving Repr, DecidableEq

/-- A probability assignment over the three risk levels. -/
structure RiskProbs where
  low : Int
  medium : Int
  high : Int
  deriving Repr, DecidableEq

/-- The escalation verdict produced by the override logic. -/
structure EscVerdict where
  predicted_risk : Risk
  confidence : Int
  probabilities : RiskProbs
  was_overridden : Bool
  deriving Repr, DecidableEq

/-- `violence_keywords` (escalation_model_service.py 324-326). -/
def violenceKeywords : List (List Char) :=
  (["shot", "fire", "fired", "gun", "weapon", "knife", "stab", "attack",
    "assault", "threat", "violence", "hurt", "blood", "injured", "dead",
    "kill", "murder", "robbery", "armed", "hostage", "kidnap"]).map
    String.toList

/-- `child_safety_keywords` (escalation_model_service.py 330-332). -/
def childSafetyKeywords : List (List Char) :=
  (["child", "children", "kid", "kids", "girl", "boy", "baby", "infant",
    "toddler", "minor", "juvenile", "abduct", "trafficking", "kidnap",
    "molest", "abuse"]).map String.toList

/-- `generic_keywords` (escalation_model_service.py 336). -/
def genericNoiseKeywords : List (List Char) :=
  (["noise", "loud", "sound", "hearing", "heard"]).map String.toList

/-- `life_threatening_keywords` (escalation_model_service.py 348-350). -/
def lifeThreateningKeywords : List (List Char) :=
  (["hostage", "gun", "armed", "weapon", "shooting", "shooter", "bomb",
    "explosive", "terror", "active shooter", "gunman", "armed robbery",
    "held at gunpoint", "threatening with"]).map String.toList

/-- The override pipeline of `predict_escalation_risk` (lines 320-424):
confidence penalty of 0.15 (i.e. 15 hundredths) per unknown categorical
feature floored at 0.30; child-safety upgrade to High (0.85) evaluated first, then the
life-threatening upgrade to High (0.95), each only when the current risk
is not already High; downgrade override (never when life-threatening or
child-safety vocabulary is present) when the base risk is High, no
violence vocabulary occurs, and either the unknown ratio among the 8
encoded features exceeds 0.3 with a description under 8 words, or generic
noise vocabulary occurs; the downgrade target is Low (0.60) with generic
noise vocabulary and Medium (0.55) without. -/
def applyEscalationOverrides (baseRisk : Risk) (rawConfidence : Int)
    (rawProbs : RiskProbs) (description : List Char) (unknownCount : Nat) :
    EscVerdict :=
  let dl := lowerL description
  let isGenericDescription := decide (wordCount description < 8)
  let hasViolence := containsAny violenceKeywords dl
  let hasChildSafety := containsAny childSafetyKeywords dl
  let hasGenericKw := containsAny genericNoiseKeywords dl
  let hasLifeThreatening := containsAny lifeThreateningKeywords dl
  let adjustedConfidence :=
    max 30 (rawConfidence - 15 * (unknownCount : Int))
  let s1 : Risk × Int × RiskProbs :=
    if hasChildSafety && !(baseRisk == .high) then
      (.high, 85, { low := 5, medium := 10, high := 85 })
    else (baseRisk, adjustedConfidence, rawProbs)
  let s2 : Risk × Int × RiskProbs :=
    if hasLifeThreatening && !(s1.1 == .high) then
      (.high, 95, { low := 2, medium := 3, high := 95 })
    else s1
  let shouldOverride :=
    if hasLifeThreatening || hasChildSafety then false
    else
      (decide (24 < 10 * unknownCount) && isGenericDescription &&
          !hasViolence && s2.1 == .high) ||
        (hasGenericKw && !hasViolence && s2.1 == .high)
  if shouldOverride then
    if hasGenericKw then
      { predicted_risk := .low, confidence := 60,
        probabilities := { low := 60, medium := 35, high := 5 },
        was_overridden := true }
    else
      { predicted_risk := .medium, confidence := 55,
        probabilities := { low := 20, medium := 55, high := 25 },
        was_overridden := true }
  else
    { predicted_risk := s2.1, confidence := s2.2.1,
      probabilities := s2.2.2, was_overridden := false }

/-- The full outcome of `predict_escalation_risk` at its interface: a
verdict plus the `error` field present on the two fallback paths. -/
structure EscOutcome where
  predicted_risk : Risk
  confidence : Int
  probabilities : RiskProbs
  errorMsg : Option String
  deriving Repr, DecidableEq

/-- The fixed fallback verdict returned when the model cannot be loaded
(lines 196-203) or any exception escapes the prediction body (449-455). -/
def escalationFallback (msg : String) : EscOutcome :=
  { predicted_risk := .medium, confidence := 0,
    probabilities := { low := 33, medium := 34, high := 33 },
    errorMsg := some msg }

/-- The base model's contribution to one prediction, as consumed by the
override pipeline. -/
structure EscInput where
  baseRisk : Risk
  rawConfidence : Int
  rawProbs : RiskProbs
  description : List Char
  unknownCount : Nat

/-- `predict_escalation_risk` at its interface: `modelLoaded` reflects
`load_escalation_model()` (which itself catches every exception and
returns `None` on failure), and `oracle` is the outcome of the prediction
body — `.error e` when parsing, encoding, tokenization or inference raises
`e`, every such exception being caught by the handler at line 444.  The
function is total: every input maps to a verdict, never an exception. -/
def predictEscalationRisk (modelLoaded : Bool)
    (oracle : Except String EscInput) : EscOutcome :=
  if !modelLoaded then escalationFallback "Model not loaded"
  else
    match oracle with
    | .error e => escalationFallback e
    | .ok inp =>
      let v := applyEscalationOverrides inp.baseRisk inp.rawConfidence
        inp.rawProbs inp.description inp.unknownCount
      { predicted_risk := v.predicted_risk, confidence := v.confidence,
        probabilities := v.probabilities, errorMsg := none }

end CitizenSafe

namespace CitizenSafe

/-! ## Theorems -/

/-- C6: for every reporter score within the ledger invariant `[0,100]` and
every credibility delta, the updated score equals
`clamp(currentScore - delta, 0, 100)` and is therefore always within
`[0,100]`; a reward (negative delta) at score 100 is suppressed as a no-op,
so repeated rewards at 100 leave the score at 100. -/
theorem applyDelta_clamped (cur delta : Int) (h0 : 0 ≤ cur) (h1 : cur ≤ 100) :
    applyDelta cur delta = max 0 (min 100 (cur - delta)) ∧
      0 ≤ applyDelta cur delta ∧ applyDelta cur delta ≤ 100 ∧
      (delta < 0 → applyDelta 100 delta = 100 ∧
        applyDelta (applyDelta 100 delta) delta = 100) := by
  simp only [applyDelta]
  split_ifs <;> omega

/-- Witness for `applyDelta_clamped` at a concrete reporter state. -/
theorem applyDelta_clamped_witness :
    applyDelta 50 30 = max 0 (min 100 (50 - 30)) ∧
      0 ≤ applyDelta 50 30 ∧ applyDelta 50 30 ≤ 100 ∧
      ((30 : Int) < 0 → applyDelta 100 30 = 100 ∧
        applyDelta (applyDelta 100 30) 30 = 100) :=
  applyDelta_clamped 50 30 (by decide) (by decide)

/-- C10: `predict_escalation_risk` is total at its interface — when the
model cannot be loaded it returns the fixed fallback verdict
(risk Medium, confidence 0, probabilities Low 0.33 / Medium 0.34 /
High 0.33, with an error field), when the prediction body raises it
returns the same fallback carrying the exception text, and (the embedding
being a total function over the reified fault outcomes) no exception ever
reaches the caller. -/
theorem predictEscalationRisk_total (loaded : Bool)
    (oracle : Except String EscInput) :
    (loaded = false →
      predictEscalationRisk loaded oracle = escalationFallback "Model not loaded") ∧
    (∀ e, oracle = .error e → loaded = true →
      predictEscalationRisk loaded oracle = escalationFallback e) ∧
    (∀ msg, (escalationFallback msg).predicted_risk = .medium ∧
      (escalationFallback msg).confidence = 0 ∧
      (escalationFallback msg).probabilities =
        { low := 33, medium := 34, high := 33 } ∧
      (escalationFallback msg).errorMsg = some msg) := by
  refine ⟨fun h => ?_, fun e he hl => ?_, fun msg => ⟨rfl, rfl, rfl, rfl⟩⟩
  · subst h; rfl
  · subst he; subst hl; rfl

/-- Witness for `predictEscalationRisk_total` on both fallback paths. -/
theorem predictEscalationRisk_total_witness :
    predictEscalationRisk false (.error "boom") =
        escalationFallback "Model not loaded" ∧
      predictEscalationRisk true (.error "boom") = escalationFallback "boom" :=
  ⟨(predictEscalationRisk_total false (.error "boom")).1 rfl,
   (predictEscalationRisk_total true (.error "boom")).2.1 "boom" rfl rfl⟩

/-- C1: the person-context gate exists in `auto_extract_and_classify`
("my child was taken near the school" escalates to Murder at confidence
0.97 with reasoning noting the escalation, while "snatched my phone"
classifies as Theft), but the keyword-override chain of
`/predict-crime-type` applies its kidnapping escalation with no person
gate: the same person-free text "snatched my phone" is escalated to
Murder at confidence 0.97 there, contradicting the specified behaviour. -/
theorem predictCrimeType_kidnapping_gate_violation :
    (autoExtractClassify ("my child was taken near the school").toList
        none).crime_type = some "Murder" ∧
      (autoExtractClassify ("my child was taken near the school").toList
        none).confidence = 97 ∧
      (autoExtractClassify ("my child was taken near the school").toList
        none).reasoning = some "🚨 KIDNAPPING/ABDUCTION detected - Classified as Murder (highest severity) due to extreme danger to victim." ∧
      (autoExtractClassify ("snatched my phone").toList none).crime_type =
        some "Theft" ∧
      (predictCrimeTypeOverride "Theft" 50
        ("snatched my phone").toList).crime_type = "Murder" ∧
      (predictCrimeTypeOverride "Theft" 50
        ("snatched my phone").toList).confidence = 97 := by
  refine ⟨?_, ?_, ?_, ?_, ?_, ?_⟩ <;> decide

end CitizenSafe

namespace CitizenSafe

/-- C4 counterexample: the text "child held hostage" contains
life-threatening vocabulary, yet because the child-safety override is
evaluated first (and the life-threatening upgrade only fires when the risk
is not already High), the verdict carries the child-safety confidence 0.85
rather than the claimed fixed 0.95. -/
theorem escalation_hostage_child_conf_85 :
    applyEscalationOverrides .low 50 { low := 50, medium := 30, high := 20 }
        ("child held hostage").toList 0 =
      { predicted_risk := .high, confidence := 85,
        probabilities := { low := 5, medium := 10, high := 85 },
        was_overridden := false } ∧
      containsAny lifeThreateningKeywords
        (lowerL ("child held hostage").toList) = true := by
  refine ⟨?_, ?_⟩ <;> decide

/-- C4 (amended): for every description containing life-threatening
vocabulary the final risk is High and no downgrade override applies; but
the life-threatening check is evaluated after the child-safety override,
so the fixed confidence 0.95 (with probability vector 0.02/0.03/0.95) is
produced only when the base risk was not already High and no child-safety
vocabulary is present — otherwise the confidence stays at the child-safety
0.85 or at the penalty-adjusted base confidence. -/
theorem escalation_life_threatening_forces_high (baseRisk : Risk)
    (rawConf : Int) (rawProbs : RiskProbs) (description : List Char) (cnt : Nat)
    (hLife : containsAny lifeThreateningKeywords (lowerL description) = true) :
    (applyEscalationOverrides baseRisk rawConf rawProbs description cnt).predicted_risk = .high ∧
      (applyEscalationOverrides baseRisk rawConf rawProbs description cnt).was_overridden = false ∧
      (baseRisk ≠ .high →
        containsAny childSafetyKeywords (lowerL description) = false →
        (applyEscalationOverrides baseRisk rawConf rawProbs description cnt).confidence = 95 ∧
        (applyEscalationOverrides baseRisk rawConf rawProbs description cnt).probabilities =
          { low := 2, medium := 3, high := 95 }) := by
  cases hcs : containsAny childSafetyKeywords (lowerL description) <;>
    cases baseRisk <;>
      simp [applyEscalationOverrides, hLife, hcs]

/-- Witness for `escalation_life_threatening_forces_high` on the concrete
text "hostage" with a Low base risk. -/
theorem escalation_life_threatening_forces_high_witness :
    (applyEscalationOverrides .low 50 { low := 50, medium := 30, high := 20 }
        (("hostage").toList) 0).predicted_risk = .high ∧
      (applyEscalationOverrides .low 50 { low := 50, medium := 30, high := 20 }
        (("hostage").toList) 0).confidence = 95 :=
  ⟨(escalation_life_threatening_forces_high .low 50
      { low := 50, medium := 30, high := 20 } (("hostage").toList) 0
      (by decide)).1,
   ((escalation_life_threatening_forces_high .low 50
      { low := 50, medium := 30, high := 20 } (("hostage").toList) 0
      (by decide)).2.2 (by decide) (by decide)).1⟩

/-- C5 counterexample: a 12-word noise complaint with zero
unknown-category features still triggers the downgrade override (the
generic-noise case of the source requires neither the >30% unknown ratio
nor the under-8-words condition), refuting the claim that the downgrade
applies only when the unknown ratio exceeds 30% and the description is
under 8 words. -/
theorem escalation_downgrade_fires_without_claimed_gate :
    applyEscalationOverrides .high 90 { low := 10, medium := 20, high := 70 }
        ("there is a very loud noise coming from the neighbors house tonight").toList 0 =
      { predicted_risk := .low, confidence := 60,
        probabilities := { low := 60, medium := 35, high := 5 },
        was_overridden := true } ∧
      wordCount ("there is a very loud noise coming from the neighbors house tonight").toList = 12 := by
  refine ⟨?_, ?_⟩ <;> decide

/-- C5 (amended): the downgrade override fires exactly when no
life-threatening, child-safety or violence vocabulary is present, the base
risk was High, and either the unknown-category ratio among the 8 encoded
features exceeds 30% with a description under 8 words, or generic
noise-complaint vocabulary is present; when it fires it yields Low with
confidence 0.60 if generic noise vocabulary is present and Medium with
confidence 0.55 otherwise; and when neither an upgrade nor the downgrade
applies the base classification passes through with a confidence penalty
of 0.15 per unknown-category feature floored at 0.30. -/
theorem escalation_downgrade_characterization (baseRisk : Risk)
    (rawConf : Int) (rawProbs : RiskProbs) (description : List Char) (cnt : Nat) :
    ((applyEscalationOverrides baseRisk rawConf rawProbs description cnt).was_overridden = true ↔
      (containsAny lifeThreateningKeywords (lowerL description) = false ∧
       containsAny childSafetyKeywords (lowerL description) = false ∧
       containsAny violenceKeywords (lowerL description) = false ∧
       baseRisk = .high ∧
       ((24 < 10 * cnt ∧ wordCount description < 8) ∨
         containsAny genericNoiseKeywords (lowerL description) = true))) ∧
    ((applyEscalationOverrides baseRisk rawConf rawProbs description cnt).was_overridden = true →
      (containsAny genericNoiseKeywords (lowerL description) = true →
        applyEscalationOverrides baseRisk rawConf rawProbs description cnt =
          { predicted_risk := .low, confidence := 60,
            probabilities := { low := 60, medium := 35, high := 5 },
            was_overridden := true }) ∧
      (containsAny genericNoiseKeywords (lowerL description) = false →
        applyEscalationOverrides baseRisk rawConf rawProbs description cnt =
          { predicted_risk := .medium, confidence := 55,
            probabilities := { low := 20, medium := 55, high := 25 },
            was_overridden := true })) ∧
    (containsAny lifeThreateningKeywords (lowerL description) = false →
      containsAny childSafetyKeywords (lowerL description) = false →
      (applyEscalationOverrides baseRisk rawConf rawProbs description cnt).was_overridden = false →
      applyEscalationOverrides baseRisk rawConf rawProbs description cnt =
        { predicted_risk := baseRisk,
          confidence := max 30 (rawConf - 15 * (cnt : Int)),
          probabilities := rawProbs, was_overridden := false }) := by
  cases hL : containsAny lifeThreateningKeywords (lowerL description) <;>
  cases hC : containsAny childSafetyKeywords (lowerL description) <;>
  cases hV : containsAny violenceKeywords (lowerL description) <;>
  cases hG : containsAny genericNoiseKeywords (lowerL description) <;>
  cases baseRisk <;>
    simp [applyEscalationOverrides, hL, hC, hV, hG, decide_eq_true_eq] <;>
    split_ifs <;> simp_all

/-- Witness for `escalation_downgrade_characterization` on the concrete
text "loud noise from neighbors" with a High base risk and 4 unknown
features. -/
theorem escalation_downgrade_characterization_witness :
    applyEscalationOverrides .high 90 { low := 10, medium := 20, high := 70 }
        (("loud noise from neighbors").toList) 4 =
      { predicted_risk := .low, confidence := 60,
        probabilities := { low := 60, medium := 35, high := 5 },
        was_overridden := true } :=
  ((escalation_downgrade_characterization .high 90
      { low := 10, medium := 20, high := 70 }
      (("loud noise from neighbors").toList) 4).2.1 (by decide)).1 (by decide)

end CitizenSafe

namespace CitizenSafe

/-- A benign 11-word theft report: no weapon/kidnapping vocabulary and a
zero suspicion penalty, used as a neutral carrier text. -/
def benignTheftText : List Char :=
  ("someone stole my wallet near the central market yesterday evening quietly").toList

/-- C3 counterexample: on the LLM tier of `detect_fake_report` the
`can_upload` flag is adopted from the model reply (not recomputed), so a
reply flagged `is_fake=true` with `can_upload=true` is returned verbatim —
refuting `can_upload = not isFake AND credibility ≥ 20` on that tier. -/
theorem detectFake_llm_can_upload_adopted :
    detectFakeReport benignTheftText 50 none
        (some (.ok { is_fake := true, confidence := 90,
                     credibility_penalty := 20, can_upload := true })) =
      .ok { is_fake := true, confidence := 90, credibility_penalty := 20,
            can_upload := true, tier := .llm } := by rfl

/-- C3 (amended): on the ML tier and on the heuristic tier of
`detect_fake_report`, `can_upload = not isFake AND reporterCredibility ≥
20`; on the LLM tier both `isFake` and `can_upload` are adopted from the
LLM reply (so an `isFake=true` reply may still carry `can_upload=true`). -/
theorem detectFake_can_upload_policy (text : List Char) (cred : Int)
    (gemini : Option (Except Unit LLMReply)) :
    (∀ (r : MLReply) (v : DetectVerdict),
       detectFakeReport text cred (some (.ok r)) gemini = .ok v →
       v.can_upload = (!v.is_fake && decide (20 ≤ cred))) ∧
    (∀ v : DetectVerdict, detectFakeReport text cred none none = .ok v →
       v.can_upload = (!v.is_fake && decide (20 ≤ cred))) ∧
    (∀ (g : LLMReply) (v : DetectVerdict),
       detectFakeReport text cred none (some (.ok g)) = .ok v →
       v.is_fake = g.is_fake ∧ v.can_upload = g.can_upload) := by
  refine ⟨?_, ?_, ?_⟩
  · intro r v h
    simp only [detectFakeReport] at h
    cases h
    rfl
  · intro v h
    simp only [detectFakeReport] at h
    cases h
    rfl
  · intro g v h
    simp only [detectFakeReport] at h
    cases h
    exact ⟨rfl, rfl⟩

/-- Witness for `detectFake_can_upload_policy` at a concrete ML-tier
verdict. -/
theorem detectFake_can_upload_policy_witness :
    (DetectVerdict.mk false 90 0 true .ml).can_upload =
      (!(DetectVerdict.mk false 90 0 true .ml).is_fake && decide ((20 : Int) ≤ 50)) :=
  (detectFake_can_upload_policy benignTheftText 50 none).1
    { is_fake := false, confidence := 90 }
    (DetectVerdict.mk false 90 0 true .ml) (by rfl)

/-- C2 counterexample: an ML verdict of fake with confidence 0.55 is
overridden to genuine and finalized at the ML tier — the Gemini oracle is
available (and would even say fake) but is never consulted
(`llm_used = false`), refuting the claimed fall-through to the LLM tier. -/
theorem autoVerify_ml_low_conf_fake_finalized_at_ml :
    autoVerifyReport benignTheftText 50 true
        (.ok { is_fake := true, confidence := 55 })
        (some (.ok { is_fake := true, confidence := 90, credibility_penalty := 20 })) =
      .ok { is_fake := false, confidence := 55, credibility_penalty := 0,
            tier := .mlModel, ml_used := true, llm_used := false } := by rfl

/-- C2 (amended): for an ML fake verdict, a confidence below 0.60 is
overridden to genuine and finalized at the ML tier with no LLM
consultation and no penalty; the LLM second-opinion fall-through happens
for fake verdicts with confidence in [0.60, 0.70). -/
theorem autoVerify_ml_fake_confidence_banding (text : List Char) (cred : Int)
    (r : MLReply) (gemini : Option (Except Unit GReply))
    (hcred : 0 < cred)
    (hw : containsAny weaponKeywordsAV (lowerL text) = false)
    (hk : containsAny kidnapKeywordsAV (lowerL text) = false)
    (hlen : 10 ≤ wordCount text)
    (hfake : r.is_fake = true) :
    (r.confidence < 60 →
      autoVerifyReport text cred true (.ok r) gemini =
        .ok { is_fake := false, confidence := r.confidence,
              credibility_penalty := 0, tier := .mlModel,
              ml_used := true, llm_used := false }) ∧
    (60 ≤ r.confidence → r.confidence < 70 →
      ∀ g : GReply, gemini = some (.ok g) →
        autoVerifyReport text cred true (.ok r) gemini =
          .ok { is_fake := g.is_fake, confidence := g.confidence,
                credibility_penalty := g.credibility_penalty,
                tier := .geminiApi, ml_used := true, llm_used := true }) := by
  have hns : ¬ cred ≤ 0 := by omega
  have h10 : ¬ (wordCount text < 10) := by omega
  constructor
  · intro hlt
    have h60 : ¬ (60 ≤ r.confidence) := by omega
    have h95 : ¬ (95 ≤ r.confidence) := by omega
    have h85 : ¬ (85 ≤ r.confidence) := by omega
    have h70 : ¬ (70 ≤ r.confidence) := by omega
    simp [autoVerifyReport, autoVerifyTier1, mlRewardBand,
      hns, h10, hw, hk, hfake, h60, h95, h85, h70]
  · intro h60 h70 g hg
    subst hg
    have h70' : ¬ (70 ≤ r.confidence) := by omega
    simp [autoVerifyReport, autoVerifyTier1, mlPenaltyBand,
      hns, h10, hw, hk, hfake, h60, h70, h70']

/-- Witness for `autoVerify_ml_fake_confidence_banding`: both branches at
concrete inputs (fake at 0.55 finalized genuine at Tier ML; fake at 0.65
falls through to the Gemini tier). -/
theorem autoVerify_ml_fake_confidence_banding_witness :
    autoVerifyReport benignTheftText 50 true
        (.ok { is_fake := true, confidence := 55 }) none =
      .ok { is_fake := false, confidence := 55, credibility_penalty := 0,
            tier := .mlModel, ml_used := true, llm_used := false } ∧
    autoVerifyReport benignTheftText 50 true
        (.ok { is_fake := true, confidence := 65 })
        (some (.ok { is_fake := false, confidence := 80, credibility_penalty := 0 })) =
      .ok { is_fake := false, confidence := 80, credibility_penalty := 0,
            tier := .geminiApi, ml_used := true, llm_used := true } :=
  ⟨(autoVerify_ml_fake_confidence_banding benignTheftText 50
      { is_fake := true, confidence := 55 } none (by decide) (by decide)
      (by decide) (by decide) rfl).1 (by decide),
   (autoVerify_ml_fake_confidence_banding benignTheftText 50
      { is_fake := true, confidence := 65 }
      (some (.ok { is_fake := false, confidence := 80, credibility_penalty := 0 }))
      (by decide) (by decide) (by decide) (by decide) rfl).2 (by decide)
      (by decide) { is_fake := false, confidence := 80, credibility_penalty := 0 } rfl⟩

/-- C7 (amended): for a non-blocked reporter and a text matching weapon or
kidnapping vocabulary, the safety bypass produces the safety verdict
(isFake=false, confidence 1.0, penalty 0, tier `safety-heuristics`) with
neither the ML fabrication model nor the LLM invoked — provided the ML
model object is loaded; when it is not, the tier-2 guard (`ML_FAKE_MODEL
is None`) re-enters the cascade and the LLM (or heuristic) verdict
overwrites the safety verdict. -/
theorem autoVerify_safety_bypass_with_ml_loaded (text : List Char) (cred : Int)
    (mlResult : Except Unit MLReply) (gemini : Option (Except Unit GReply))
    (hcred : 0 < cred)
    (hsafe : (containsAny weaponKeywordsAV (lowerL text) ||
              containsAny kidnapKeywordsAV (lowerL text)) = true) :
    autoVerifyReport text cred true mlResult gemini =
      .ok { is_fake := false, confidence := 100, credibility_penalty := 0,
            tier := .safetyHeuristics, ml_used := false, llm_used := false } := by
  have hns : ¬ cred ≤ 0 := by omega
  simp [autoVerifyReport, autoVerifyTier1, hns, hsafe]

/-- Witness for `autoVerify_safety_bypass_with_ml_loaded` on the weapon
text "he has a gun". -/
theorem autoVerify_safety_bypass_with_ml_loaded_witness :
    autoVerifyReport (("he has a gun").toList) 50 true (.error ()) none =
      .ok { is_fake := false, confidence := 100, credibility_penalty := 0,
            tier := .safetyHeuristics, ml_used := false, llm_used := false } :=
  autoVerify_safety_bypass_with_ml_loaded (("he has a gun").toList) 50
    (.error ()) none (by decide) (by decide)

/-- C7 counterexample: with the ML model object not loaded, the tier-2
guard re-enters the cascade for the weapon text "he has a gun" and the
Gemini verdict (here: fake) overwrites the safety verdict — the LLM is
invoked and the genuine-danger report is suppressed as fake. -/
theorem autoVerify_safety_overwritten_when_ml_unloaded :
    autoVerifyReport (("he has a gun").toList) 50 false (.error ())
        (some (.ok { is_fake := true, confidence := 90, credibility_penalty := 15 })) =
      .ok { is_fake := true, confidence := 90, credibility_penalty := 15,
            tier := .geminiApi, ml_used := false, llm_used := true } ∧
      containsAny weaponKeywordsAV (lowerL (("he has a gun").toList)) = true := by
  exact ⟨by rfl, by decide⟩

end CitizenSafe

namespace CitizenSafe

/-- C9: for every text of more than 5 whitespace-separated words none of
the three gibberish checks contributes to the suspicion penalty — all
three are gated on the text having at most 5 words — so the total penalty
is the capped sum of the remaining checks only. -/
theorem gibberish_gated_on_short_texts (text : List Char) (cred : Int)
    (h : 5 < wordCount text) :
    gibberishPenalty text = 0 ∧
      quickRawPenalty text cred =
        brevityPenalty text + jokePenalty (lowerL text) +
          implausiblePenalty (lowerL text) + contradictionPenalty (lowerL text) +
          punctuationPenalty (lowerL text) + capsPenalty text +
          vaguePenalty (lowerL text) + disclaimerPenalty (lowerL text) +
          lowCredibilityPenalty cred + missingCrimePenalty text (lowerL text) ∧
      (quickFakeCheck text cred).penalty =
        min (brevityPenalty text + jokePenalty (lowerL text) +
          implausiblePenalty (lowerL text) + contradictionPenalty (lowerL text) +
          punctuationPenalty (lowerL text) + capsPenalty text +
          vaguePenalty (lowerL text) + disclaimerPenalty (lowerL text) +
          lowCredibilityPenalty cred + missingCrimePenalty text (lowerL text)) 25 := by
  have hg : gibberishPenalty text = 0 := by
    unfold gibberishPenalty
    rw [if_neg (by omega)]
  have hr : quickRawPenalty text cred =
      brevityPenalty text + jokePenalty (lowerL text) +
        implausiblePenalty (lowerL text) + contradictionPenalty (lowerL text) +
        punctuationPenalty (lowerL text) + capsPenalty text +
        vaguePenalty (lowerL text) + disclaimerPenalty (lowerL text) +
        lowCredibilityPenalty cred + missingCrimePenalty text (lowerL text) := by
    simp only [quickRawPenalty]
    rw [hg]
    omega
  refine ⟨hg, hr, ?_⟩
  simp only [quickFakeCheck]
  rw [hr]

/-- Witness for `gibberish_gated_on_short_texts` on a 6-word gibberish
text: no gibberish penalty despite every word being gibberish. -/
theorem gibberish_gated_on_short_texts_witness :
    gibberishPenalty (("xqzt bvfk wxzz qqpl zzzk mmtr").toList) = 0 :=
  (gibberish_gated_on_short_texts
    (("xqzt bvfk wxzz qqpl zzzk mmtr").toList) 50 (by decide)).1

end CitizenSafe


namespace CitizenSafe

/-! ### Append-monotonicity lemmas for the scanner primitives -/

/-! ### Append-monotonicity of the scanners (used for the suspicion
scorer's trigger-composition property) -/

theorem startsWithL_append (n : List Char) : ∀ (s x : List Char),
    startsWithL n s = true → startsWithL n (s ++ x) = true := by
  induction n with
  | nil => intro s x _; rfl
  | cons p ps ih =>
    intro s x h
    cases s with
    | nil => simp [startsWithL] at h
    | cons c cs =>
      simp only [startsWithL, Bool.and_eq_true] at h ⊢
      exact ⟨h.1, ih cs x h.2⟩

theorem containsL_nil_left (x : List Char) : containsL [] x = true := by
  cases x <;> simp [containsL, startsWithL]

theorem containsL_append (n : List Char) : ∀ (h x : List Char),
    containsL n h = true → containsL n (h ++ x) = true := by
  intro h
  induction h with
  | nil =>
    intro x hc
    cases n with
    | nil => exact containsL_nil_left x
    | cons a as => simp [containsL, startsWithL] at hc
  | cons c cs ih =>
    intro x hc
    simp only [containsL, Bool.or_eq_true, List.cons_append] at hc ⊢
    rcases hc with h1 | h2
    · exact Or.inl (startsWithL_append n (c :: cs) x h1)
    · exact Or.inr (ih x h2)

theorem containsAny_append (kws : List (List Char)) (h x : List Char)
    (hc : containsAny kws h = true) : containsAny kws (h ++ x) = true := by
  simp only [containsAny, List.any_eq_true] at hc ⊢
  obtain ⟨k, hk, hck⟩ := hc
  exact ⟨k, hk, containsL_append k h x hck⟩

theorem countChar_append (ch : Char) (a b : List Char) :
    countChar ch (a ++ b) = countChar ch a + countChar ch b := by
  simp [countChar, List.countP_append]

theorem lowerL_append (a b : List Char) :
    lowerL (a ++ b) = lowerL a ++ lowerL b := by
  simp [lowerL]

theorem splitWsAux_space_append (t : List Char) : ∀ (a acc : List Char),
    (splitWsAux acc (a ++ ' ' :: t)).length =
      (splitWsAux acc a).length + (splitWs t).length := by
  intro a
  induction a with
  | nil =>
    intro acc
    have hws : (' ').isWhitespace = true := by decide
    by_cases hacc : acc.isEmpty <;>
      simp [splitWsAux, hws, hacc, splitWs] <;> omega
  | cons c cs ih =>
    intro acc
    by_cases hws : c.isWhitespace <;> by_cases hacc : acc.isEmpty <;>
      simp [splitWsAux, hws, hacc, ih] <;> omega

theorem wordCount_space_append (a t : List Char) :
    wordCount (a ++ ' ' :: t) = wordCount a + wordCount t := by
  simp [wordCount, splitWs, splitWsAux_space_append]

end CitizenSafe

namespace CitizenSafe

theorem dropTok_append (tok : List Char) : ∀ (s x rest : List Char),
    dropTok tok s = some rest → dropTok tok (s ++ x) = some (rest ++ x) := by
  induction tok with
  | nil =>
    intro s x rest h
    simp [dropTok] at h
    subst h
    rfl
  | cons p ps ih =>
    intro s x rest h
    cases s with
    | nil => simp [dropTok] at h
    | cons c cs =>
      by_cases hpc : (p == c) = true
      · simp only [dropTok, hpc, if_true, List.cons_append] at h ⊢
        exact ih cs x rest h
      · simp [dropTok, hpc] at h

theorem rightBoundary_append_space (rest t : List Char)
    (h : rightBoundary rest = true) :
    rightBoundary (rest ++ ' ' :: t) = true := by
  cases rest with
  | nil =>
    show rightBoundary (' ' :: t) = true
    simp only [rightBoundary]
    decide
  | cons c cs => simpa [rightBoundary] using h

theorem dropWsGreedy_append (x : List Char) : ∀ (s : List Char) (c : Char) (r : List Char),
    dropWsGreedy s = c :: r → dropWsGreedy (s ++ x) = c :: (r ++ x) := by
  intro s
  induction s with
  | nil => intro c r h; simp [dropWsGreedy] at h
  | cons d ds ih =>
    intro c r h
    by_cases hws : d.isWhitespace
    · simp only [dropWsGreedy, hws, if_true, List.cons_append] at h ⊢
      exact ih c r h
    · have hd : dropWsGreedy (d :: ds) = d :: ds := by simp [dropWsGreedy, hws]
      rw [hd] at h
      rw [List.cons_eq_cons] at h
      obtain ⟨h1, h2⟩ := h
      subst h1
      subst h2
      show dropWsGreedy (d :: (ds ++ x)) = d :: (ds ++ x)
      simp [dropWsGreedy, hws]

theorem dropWsPlus_append (s x : List Char) (c : Char) (r : List Char)
    (h : dropWsPlus s = some (c :: r)) :
    dropWsPlus (s ++ x) = some (c :: (r ++ x)) := by
  cases s with
  | nil => simp [dropWsPlus] at h
  | cons d ds =>
    by_cases hws : d.isWhitespace
    · simp only [dropWsPlus, hws, if_true, List.cons_append, Option.some.injEq] at h ⊢
      exact dropWsGreedy_append x ds c r h
    · simp [dropWsPlus, hws] at h

theorem dropWordGreedy_append (x : List Char) : ∀ (s : List Char) (c : Char) (r : List Char),
    dropWordGreedy s = c :: r → dropWordGreedy (s ++ x) = c :: (r ++ x) := by
  intro s
  induction s with
  | nil => intro c r h; simp [dropWordGreedy] at h
  | cons d ds ih =>
    intro c r h
    by_cases hwc : wordChar d = true
    · simp only [dropWordGreedy, hwc, if_true, List.cons_append] at h ⊢
      exact ih c r h
    · have hd : dropWordGreedy (d :: ds) = d :: ds := by simp [dropWordGreedy, hwc]
      rw [hd] at h
      rw [List.cons_eq_cons] at h
      obtain ⟨h1, h2⟩ := h
      subst h1
      subst h2
      show dropWordGreedy (d :: (ds ++ x)) = d :: (ds ++ x)
      simp [dropWordGreedy, hwc]

theorem dropWordPlus_append (s x : List Char) (c : Char) (r : List Char)
    (h : dropWordPlus s = some (c :: r)) :
    dropWordPlus (s ++ x) = some (c :: (r ++ x)) := by
  cases s with
  | nil => simp [dropWordPlus] at h
  | cons d ds =>
    by_cases hwc : wordChar d = true
    · simp only [dropWordPlus, hwc, if_true, List.cons_append, Option.some.injEq] at h ⊢
      exact dropWordGreedy_append x ds c r h
    · simp [dropWordPlus, hwc] at h

theorem matchTokenAt_append_space (tok : List Char) (prev : Option Char)
    (s t : List Char) (h : matchTokenAt tok prev s = true) :
    matchTokenAt tok prev (s ++ ' ' :: t) = true := by
  simp only [matchTokenAt, Bool.and_eq_true] at h ⊢
  obtain ⟨hlb, hm⟩ := h
  refine ⟨hlb, ?_⟩
  cases hd : dropTok tok s with
  | none => rw [hd] at hm; exact absurd hm (by simp)
  | some rest =>
    rw [hd] at hm
    rw [dropTok_append tok s (' ' :: t) rest hd]
    exact rightBoundary_append_space rest t hm

theorem searchFrom_append_space (t : List Char)
    (m : Option Char → List Char → Bool)
    (hm : ∀ prev s, m prev s = true → m prev (s ++ ' ' :: t) = true) :
    ∀ (s : List Char) (prev : Option Char),
      searchFrom m prev s = true → searchFrom m prev (s ++ ' ' :: t) = true := by
  intro s
  induction s with
  | nil =>
    intro prev h
    have h2 := hm prev [] h
    simp only [List.nil_append] at h2 ⊢
    simp [searchFrom, h2]
  | cons c cs ih =>
    intro prev h
    simp only [searchFrom, Bool.or_eq_true, List.cons_append] at h ⊢
    rcases h with h1 | h2
    · exact Or.inl (hm prev (c :: cs) h1)
    · exact Or.inr (ih (some c) h2)

theorem tokenSearch_append_space (tok s t : List Char)
    (h : tokenSearch tok s = true) :
    tokenSearch tok (s ++ ' ' :: t) = true :=
  searchFrom_append_space t (matchTokenAt tok)
    (fun prev u hu => matchTokenAt_append_space tok prev u t hu) s none h

end CitizenSafe

namespace CitizenSafe


theorem tokAltEnd_append_space (alts : List (List Char)) (r t : List Char)
    (h : tokAltEnd alts r = true) : tokAltEnd alts (r ++ ' ' :: t) = true := by
  simp only [tokAltEnd, List.any_eq_true] at h ⊢
  obtain ⟨a, ha, hma⟩ := h
  refine ⟨a, ha, ?_⟩
  cases hd : dropTok a r with
  | none => rw [hd] at hma; exact absurd hma (by simp)
  | some rest =>
    rw [hd] at hma
    rw [dropTok_append a r (' ' :: t) rest hd]
    exact rightBoundary_append_space rest t hma

theorem matchHundredAt_append_space (prev : Option Char) (s t : List Char)
    (h : matchHundredAt prev s = true) :
    matchHundredAt prev (s ++ ' ' :: t) = true := by
  simp only [matchHundredAt, Bool.and_eq_true] at h ⊢
  obtain ⟨hlb, hm⟩ := h
  refine ⟨hlb, ?_⟩
  cases hd : dropTok (("100").toList) s with
  | none => simp only [hd] at hm; exact Bool.noConfusion hm
  | some rest =>
    simp only [hd] at hm
    simp only [dropTok_append _ s (' ' :: t) rest hd]
    cases hw : dropWsPlus rest with
    | none => simp only [hw] at hm; exact Bool.noConfusion hm
    | some r2 =>
      simp only [hw] at hm
      cases r2 with
      | nil => exact absurd hm (by decide)
      | cons c2 r2x =>
        simp only [dropWsPlus_append rest (' ' :: t) c2 r2x hw]
        exact tokAltEnd_append_space _ _ t hm

theorem dropPlusOpt_append (rest x : List Char) (hne : rest ≠ []) :
    dropPlusOpt (rest ++ x) = dropPlusOpt rest ++ x := by
  cases rest with
  | nil => exact absurd rfl hne
  | cons c rr =>
    simp only [List.cons_append, dropPlusOpt]
    by_cases hc : (c == '+') = true
    · simp [hc]
    · simp [hc]

theorem matchFiftyAt_append_space (prev : Option Char) (s t : List Char)
    (h : matchFiftyAt prev s = true) :
    matchFiftyAt prev (s ++ ' ' :: t) = true := by
  simp only [matchFiftyAt, Bool.and_eq_true] at h ⊢
  obtain ⟨hlb, hm⟩ := h
  refine ⟨hlb, ?_⟩
  cases hd : dropTok (("50").toList) s with
  | none => simp only [hd] at hm; exact Bool.noConfusion hm
  | some rest =>
    simp only [hd] at hm
    simp only [dropTok_append _ s (' ' :: t) rest hd]
    cases rest with
    | nil => exact absurd hm (by decide)
    | cons c0 rr =>
      simp only [dropPlusOpt_append (c0 :: rr) (' ' :: t) (by simp)]
      cases hw : dropWsPlus (dropPlusOpt (c0 :: rr)) with
      | none => simp only [hw] at hm; exact Bool.noConfusion hm
      | some r2 =>
        simp only [hw] at hm
        cases r2 with
        | nil => exact absurd hm (by decide)
        | cons c2 r2x =>
          simp only [dropWsPlus_append _ (' ' :: t) c2 r2x hw]
          exact tokAltEnd_append_space _ _ t hm

theorem matchSecondEnd_append_space (r t : List Char)
    (h : matchSecondEnd r = true) : matchSecondEnd (r ++ ' ' :: t) = true := by
  simp only [matchSecondEnd] at h ⊢
  cases hd : dropTok (("second").toList) r with
  | none => simp only [hd] at h; exact Bool.noConfusion h
  | some rest =>
    simp only [hd] at h
    simp only [dropTok_append _ r (' ' :: t) rest hd]
    exact rightBoundary_append_space rest t h

theorem matchEveryAt_append_space (prev : Option Char) (s t : List Char)
    (h : matchEveryAt prev s = true) :
    matchEveryAt prev (s ++ ' ' :: t) = true := by
  simp only [matchEveryAt, Bool.and_eq_true] at h ⊢
  obtain ⟨hlb, hm⟩ := h
  refine ⟨hlb, ?_⟩
  cases hd : dropTok (("every").toList) s with
  | none => simp only [hd] at hm; exact Bool.noConfusion hm
  | some rest =>
    simp only [hd] at hm
    simp only [dropTok_append _ s (' ' :: t) rest hd]
    cases hw : dropWsPlus rest with
    | none => simp only [hw] at hm; exact Bool.noConfusion hm
    | some r2 =>
      simp only [hw] at hm
      cases r2 with
      | nil => exact absurd hm (by decide)
      | cons c2 r2x =>
        simp only [dropWsPlus_append rest (' ' :: t) c2 r2x hw]
        simp only [Bool.or_eq_true] at hm ⊢
        rcases hm with hA | hB
        · exact Or.inl (matchSecondEnd_append_space _ t hA)
        · refine Or.inr ?_
          cases hwp : dropWordPlus (c2 :: r2x) with
          | none => simp only [hwp] at hB; exact Bool.noConfusion hB
          | some r3 =>
            simp only [hwp] at hB
            cases r3 with
            | nil => exact absurd hB (by decide)
            | cons c3 r3x =>
              have hrw1 : dropWordPlus (c2 :: (r2x ++ ' ' :: t)) =
                  some (c3 :: (r3x ++ ' ' :: t)) := by
                simpa using dropWordPlus_append _ (' ' :: t) c3 r3x hwp
              simp only [hrw1]
              cases hw2 : dropWsPlus (c3 :: r3x) with
              | none => simp only [hw2] at hB; exact Bool.noConfusion hB
              | some r4 =>
                simp only [hw2] at hB
                cases r4 with
                | nil => exact absurd hB (by decide)
                | cons c4 r4x =>
                  have hrw2 : dropWsPlus (c3 :: (r3x ++ ' ' :: t)) =
                      some (c4 :: (r4x ++ ' ' :: t)) := by
                    simpa using dropWsPlus_append _ (' ' :: t) c4 r4x hw2
                  simp only [hrw2]
                  exact matchSecondEnd_append_space _ t hB

end CitizenSafe

namespace CitizenSafe

theorem searchText_append_space (m : Option Char → List Char → Bool)
    (hm : ∀ prev s, ∀ t, m prev s = true → m prev (s ++ ' ' :: t) = true)
    (s t : List Char) (h : searchText m s = true) :
    searchText m (s ++ ' ' :: t) = true :=
  searchFrom_append_space t m (fun prev u hu => hm prev u t hu) s none h

theorem ite_zero_mono {p q : Prop} [Decidable p] [Decidable q]
    (h : p → q) (k : Nat) :
    (if p then k else 0) ≤ (if q then k else 0) := by
  by_cases hp : p
  · simp [hp, h hp]
  · simp [hp]

theorem countP_imp_le {α : Type} (l : List α) (p q : α → Bool)
    (h : ∀ a, p a = true → q a = true) : l.countP p ≤ l.countP q := by
  induction l with
  | nil => simp
  | cons a as ih =>
    rw [List.countP_cons, List.countP_cons]
    by_cases hp : p a = true
    · rw [if_pos hp, if_pos (h a hp)]
      omega
    · rw [if_neg hp]
      split_ifs <;> omega

theorem lowerL_space_append (a t : List Char) :
    lowerL (a ++ ' ' :: t) = lowerL a ++ ' ' :: lowerL t := by
  simp only [lowerL, List.map_append, List.map_cons]
  rfl

theorem gibberishPenalty_eq_zero (text : List Char) (h : 5 < wordCount text) :
    gibberishPenalty text = 0 := by
  unfold gibberishPenalty
  rw [if_neg (by omega)]

theorem brevityPenalty_eq_zero (text : List Char) (h : 10 ≤ wordCount text) :
    brevityPenalty text = 0 := by
  unfold brevityPenalty
  rw [if_neg (by omega), if_neg (by omega)]

theorem jokePenalty_mono (tl x : List Char) :
    jokePenalty tl ≤ jokePenalty (tl ++ x) := by
  unfold jokePenalty
  exact ite_zero_mono (fun h => containsAny_append _ _ _ h) 20

theorem disclaimerPenalty_mono (tl x : List Char) :
    disclaimerPenalty tl ≤ disclaimerPenalty (tl ++ x) := by
  unfold disclaimerPenalty
  exact ite_zero_mono (fun h => containsAny_append _ _ _ h) 15

theorem contradictionPenalty_mono (tl x : List Char) :
    contradictionPenalty tl ≤ contradictionPenalty (tl ++ x) := by
  unfold contradictionPenalty
  refine ite_zero_mono (fun h => ?_) 3
  simp only [Bool.and_eq_true] at h ⊢
  exact ⟨containsL_append _ _ _ h.1, containsAny_append _ _ _ h.2⟩

theorem punctuationPenalty_mono (tl x : List Char) :
    punctuationPenalty tl ≤ punctuationPenalty (tl ++ x) := by
  unfold punctuationPenalty
  refine ite_zero_mono (fun h => ?_) 3
  simp only [Bool.or_eq_true, decide_eq_true_eq, countChar_append] at h ⊢
  omega

theorem vaguePenalty_mono (tl x : List Char) :
    vaguePenalty tl ≤ vaguePenalty (tl ++ x) := by
  unfold vaguePenalty
  refine ite_zero_mono (fun h => ?_) 4
  calc 3 ≤ vagueCount tl := h
    _ ≤ vagueCount (tl ++ x) :=
        countP_imp_le _ _ _ (fun a ha => containsL_append a tl x ha)

theorem capsPenalty_eq_zero (text : List Char)
    (h : (lowerL text).any Char.isAlpha = true) : capsPenalty text = 0 := by
  unfold capsPenalty
  rw [show capsOccurrences (lowerL text) = 0 from by
    unfold capsOccurrences; rw [if_pos h]]
  simp

theorem missingCrimePenalty_eq_zero (text tl : List Char)
    (h : containsAny crimeKeywords tl = true) :
    missingCrimePenalty text tl = 0 := by
  unfold missingCrimePenalty
  rw [if_neg (by simp [h])]

theorem implausiblePenalty_mono (tl t : List Char) :
    implausiblePenalty tl ≤ implausiblePenalty (tl ++ ' ' :: t) := by
  unfold implausiblePenalty
  refine Nat.add_le_add (Nat.add_le_add (Nat.add_le_add (Nat.add_le_add
    (Nat.add_le_add ?_ ?_) ?_) ?_) ?_) ?_
  · exact ite_zero_mono (fun h => tokenSearch_append_space _ _ _ h) 8
  · exact ite_zero_mono (fun h => tokenSearch_append_space _ _ _ h) 8
  · exact ite_zero_mono
      (fun h => searchText_append_space matchHundredAt
        (fun prev s u hu => matchHundredAt_append_space prev s u hu) tl t h) 8
  · exact ite_zero_mono (fun h => tokenSearch_append_space _ _ _ h) 8
  · exact ite_zero_mono
      (fun h => searchText_append_space matchFiftyAt
        (fun prev s u hu => matchFiftyAt_append_space prev s u hu) tl t h) 8
  · exact ite_zero_mono
      (fun h => searchText_append_space matchEveryAt
        (fun prev s u hu => matchEveryAt_append_space prev s u hu) tl t h) 8

/-- C8 (amended): the suspicion penalty is monotone non-decreasing under
appending trigger words for base texts outside the word-count-gated
checks — at least 10 words, containing a crime keyword and at least one
letter: appending any further text (in particular any trigger word or
phrase, separated by a space) never decreases the penalty.  (Without
these conditions monotonicity fails, because the gibberish and brevity
checks are gated on word count and the missing-crime/capitalization
checks on keyword and letter content; see
`quickPenalty_not_monotone_under_trigger`.) -/
theorem quickPenalty_monotone_on_long_crime_texts (base t : List Char) (cred : Int)
    (hwc : 10 ≤ wordCount base)
    (hcrime : containsAny crimeKeywords (lowerL base) = true)
    (halpha : (lowerL base).any Char.isAlpha = true) :
    (quickFakeCheck base cred).penalty ≤
      (quickFakeCheck (base ++ ' ' :: t) cred).penalty := by
  have hwc2 : 10 ≤ wordCount (base ++ ' ' :: t) := by
    rw [wordCount_space_append]; omega
  have hlow := lowerL_space_append base t
  have hraw : quickRawPenalty base cred ≤
      quickRawPenalty (base ++ ' ' :: t) cred := by
    simp only [quickRawPenalty]
    rw [hlow]
    rw [gibberishPenalty_eq_zero base (by omega),
      gibberishPenalty_eq_zero (base ++ ' ' :: t) (by omega),
      brevityPenalty_eq_zero base hwc,
      brevityPenalty_eq_zero (base ++ ' ' :: t) hwc2,
      capsPenalty_eq_zero base halpha,
      capsPenalty_eq_zero (base ++ ' ' :: t) (by
        rw [hlow]
        simp only [List.any_append, Bool.or_eq_true]
        exact Or.inl halpha),
      missingCrimePenalty_eq_zero base (lowerL base) hcrime,
      missingCrimePenalty_eq_zero (base ++ ' ' :: t)
        (lowerL base ++ ' ' :: lowerL t)
        (containsAny_append _ _ _ hcrime)]
    have hjoke := jokePenalty_mono (lowerL base) (' ' :: lowerL t)
    have himp := implausiblePenalty_mono (lowerL base) (lowerL t)
    have hcon := contradictionPenalty_mono (lowerL base) (' ' :: lowerL t)
    have hpun := punctuationPenalty_mono (lowerL base) (' ' :: lowerL t)
    have hvag := vaguePenalty_mono (lowerL base) (' ' :: lowerL t)
    have hdis := disclaimerPenalty_mono (lowerL base) (' ' :: lowerL t)
    omega
  simp only [quickFakeCheck]
  exact min_le_min hraw (le_refl 25)

/-- Witness for `quickPenalty_monotone_on_long_crime_texts`: appending
the joke triggers "lol jk" to an 11-word genuine theft report. -/
theorem quickPenalty_monotone_witness :
    (quickFakeCheck benignTheftText 50).penalty ≤
      (quickFakeCheck (benignTheftText ++ ' ' :: ("lol jk").toList) 50).penalty :=
  quickPenalty_monotone_on_long_crime_texts benignTheftText (("lol jk").toList)
    50 (by decide) (by decide) (by decide)

/-- C8 counterexample: the 5-word text "gun grl brd crw pld" scores
penalty 22; appending the contradiction trigger "but not" (which itself
fires, contributing 3) lifts the text over the 5-word gibberish gate and
the penalty drops to 5 — adding a trigger condition decreased the
penalty, refuting monotonicity as claimed. -/
theorem quickPenalty_not_monotone_under_trigger :
    (quickFakeCheck ("gun grl brd crw pld").toList 50).penalty = 22 ∧
      (quickFakeCheck (("gun grl brd crw pld").toList ++ ' ' :: ("but not").toList) 50).penalty = 5 ∧
      contradictionPenalty
        (lowerL (("gun grl brd crw pld").toList ++ ' ' :: ("but not").toList)) = 3 ∧
      contradictionPenalty (lowerL ("gun grl brd crw pld").toList) = 0 := by
  refine ⟨?_, ?_, ?_, ?_⟩ <;> decide

end CitizenSafe
